import Mathlib

set_option maxHeartbeats 1000000

/-! Shallow embedding of the Alpha Vantage stock ETL pipeline
    (src/stock_etl.py and src/scheduler.py): the data model, the
    extract / transform / load functions and the per-symbol
    orchestration loop, together with theorems settling the
    specification claims. Machine floats are modelled over the exact
    rationals; the IEEE behaviour of division by zero is kept explicit
    through the FloatVal type. -/

/-- Python exception classes the source raises or catches. -/
inductive PyExc
  | requestException
  | runtimeError
  | validationError
  | keyError
  | typeError
  | valueError
  | jsonDecodeError
deriving DecidableEq

/-- Leaf value of a JSON payload field. The provider encodes numbers as
    decimal strings; each leaf is an integer literal, a numeric literal
    that may carry a fractional part, or non-numeric text. -/
inductive JsonScalar
  | numInt (n : Int)
  | numFrac (q : Rat)
  | text (s : String)
deriving DecidableEq

/-- One day's bar inside the payload, corresponding to the aliases
    1. open, 2. high, 3. low, 4. close, 5. volume of StockDataPoint. -/
structure RawBar where
  op : JsonScalar
  hi : JsonScalar
  lo : JsonScalar
  cl : JsonScalar
  vol : JsonScalar
deriving DecidableEq

/-- Decoded top-level API response: an optional Information field and an
    optional Time Series (Daily) field mapping date strings to bars. -/
structure Payload where
  information : Option String
  timeSeries : Option (List (String × RawBar))
deriving DecidableEq

/-- Content of one file in the raw-data directory: a JSON object, a
    JSON value that is not an object, or text that is not valid JSON. -/
inductive FileContent
  | jsonObj (p : Payload)
  | jsonNonObject
  | corruptText
deriving DecidableEq

/-- Raw-data directory: file name to content, one entry per name. -/
def Files := List (String × FileContent)

instance : DecidableEq Files := by
  unfold Files
  infer_instance

/-- Outcome of the HTTP GET for one request, as seen by fetch_stock_data:
    either some transport-level failure (bad status, timeout, body that
    requests cannot decode) or a decoded payload. -/
inductive NetOutcome
  | transportError
  | response (p : Payload)
deriving DecidableEq

/-- Value of a float64 cell, with finite arithmetic taken exactly over
    the rationals and the zero-division results kept explicit. -/
inductive FloatVal
  | fin (q : Rat)
  | inf
  | negInf
  | nan
deriving DecidableEq

/-- One row of the transformed DataFrame. -/
structure Row where
  symbol : String
  date : String
  openP : Rat
  highP : Rat
  lowP : Rat
  closeP : Rat
  volume : Option Int
  dailyChange : FloatVal
  extractionTs : String
deriving DecidableEq

/-- One record of the stock_daily_data table. The daily_change_percentage
    column is nullable; binding a NaN float stores NULL. -/
structure DBRecord where
  symbol : String
  date : String
  openP : Rat
  highP : Rat
  lowP : Rat
  closeP : Rat
  volume : Option Int
  dailyChange : Option FloatVal
  extractionTs : String
deriving DecidableEq

/-- Configured ticker list, line 21 of stock_etl.py. -/
def SYMBOLS : List String := ["AAPL", "GOOG", "MSFT"]

/-- Boolean check that one character list starts with another. -/
def listStarts : List Char → List Char → Bool
  | [], _ => true
  | _ :: _, [] => false
  | a :: as, b :: bs => a == b && listStarts as bs

/-- Characters of the .json extension. -/
def jsonExt : List Char := ['.', 'j', 's', 'o', 'n']

/-- Whether a file name matches the glob pattern sym_*.json: the name is
    sym, an underscore, an arbitrary (possibly empty) middle and the
    .json extension. -/
def globMatch (sym name : String) : Bool :=
  listStarts (sym.data ++ ['_']) name.data
    && listStarts jsonExt.reverse ((name.data.drop (sym.data.length + 1)).reverse)

/-- Fetch-mode decision of fetch_stock_data, line 56: compact when the
    glob sym_*.json matches any file of the raw-data directory, full
    otherwise. The decision reads only the local file names. -/
def output_size (sym : String) (names : List String) : String :=
  if names.any (fun n => globMatch sym n) then "compact" else "full"

/-- Pydantic coercion of a JSON string into a float field: numeric
    literals succeed, other text fails. -/
def validFloatField : JsonScalar → Bool
  | .text _ => false
  | _ => true

/-- Pydantic coercion of a JSON string into an int field: only integer
    literals succeed. -/
def validIntField : JsonScalar → Bool
  | .numInt _ => true
  | _ => false

/-- Whether one bar passes StockDataPoint validation. -/
def validBar (b : RawBar) : Bool :=
  validFloatField b.op && validFloatField b.hi && validFloatField b.lo
    && validFloatField b.cl && validIntField b.vol

/-- TimeSeriesData.model_validate: the Time Series (Daily) field must be
    present and every bar must validate; extra top-level fields are
    ignored. -/
def model_validate (p : Payload) : Bool :=
  match p.timeSeries with
  | none => false
  | some ts => ts.all (fun kv => validBar kv.2)

/-- Look a file name up in the raw-data directory. -/
def lookupFile : Files → String → Option FileContent
  | [], _ => none
  | (q, c) :: rest, p => if q == p then some c else lookupFile rest p

/-- Write a file, overwriting an existing entry of the same name. -/
def setFile : Files → String → FileContent → Files
  | [], p, c => [(p, c)]
  | (q, d) :: rest, p, c =>
      if q == p then (p, c) :: rest else (q, d) :: setFile rest p c

/-- Body of the try block of fetch_stock_data, lines 64 to 82: perform
    the request, raise RuntimeError when the payload has a top-level
    Information field, validate with pydantic, then write the snapshot
    sym_today.json and return its path. An error value is a raised
    exception; the file state is unchanged on every raising path because
    the write is the last step. -/
def fetchTry (files : Files) (sym : String)
    (net : String → String → NetOutcome) (today : String) :
    Except PyExc (String × Files) :=
  let osz := output_size sym (files.map Prod.fst)
  match net sym osz with
  | .transportError => .error .requestException
  | .response p =>
      if p.information.isSome then .error .runtimeError
      else if model_validate p then
        let path := sym ++ "_" ++ today ++ ".json"
        .ok (path, setFile files path (.jsonObj p))
      else .error .validationError

/-- Result of fetch_stock_data as its caller observes it: a returned
    path, a returned None, or an exception that escaped the handlers. -/
inductive FetchOut
  | ok (path : String)
  | noArtifact
  | raised (e : PyExc)
deriving DecidableEq

/-- fetch_stock_data, lines 48 to 89: run the try block and apply the
    except clauses, which catch RequestException, ValidationError and
    KeyError and return None. RuntimeError has no handler, so the
    rate-limit branch escapes. -/
def fetch_stock_data (files : Files) (sym : String)
    (net : String → String → NetOutcome) (today : String) :
    FetchOut × Files :=
  match fetchTry files sym net today with
  | .ok (path, fs) => (.ok path, fs)
  | .error .requestException => (.noArtifact, files)
  | .error .validationError => (.noArtifact, files)
  | .error .keyError => (.noArtifact, files)
  | .error e => (.raised e, files)

/-- pd.to_numeric applied to one price cell, line 114 to 115: numeric
    literals parse, other text raises ValueError (returned as none
    here and turned into the exception by transformRows). -/
def priceVal : JsonScalar → Option Rat
  | .numInt n => some (n : Rat)
  | .numFrac q => some q
  | .text _ => none

/-- daily_change_percentage, line 126, under IEEE float semantics: for
    open not zero the exact value of (close - open) / open * 100; for
    open zero the division yields a signed infinity, or NaN when close
    is zero as well. No exception is raised. -/
def dailyChangeVal (o c : Rat) : FloatVal :=
  if o = 0 then (if 0 < c then .inf else if c < 0 then .negInf else .nan)
  else .fin ((c - o) / o * 100)

/-- Build one DataFrame row from one date entry, lines 104 to 126:
    renamed columns, numeric prices, volume coerced with errors =
    coerce then cast to the nullable Int64 dtype, the symbol tag, the
    shared extraction timestamp and the derived change column. -/
def mkRow (sym now : String) (kv : String × RawBar) : Row :=
  let o := (priceVal kv.2.op).getD 0
  let c := (priceVal kv.2.cl).getD 0
  { symbol := sym
    date := kv.1
    openP := o
    highP := (priceVal kv.2.hi).getD 0
    lowP := (priceVal kv.2.lo).getD 0
    closeP := c
    volume := match kv.2.vol with
      | .numInt n => some n
      | .numFrac q => some q.num
      | .text _ => none
    dailyChange := dailyChangeVal o c
    extractionTs := now }

/-- Column conversions of transform_data, lines 113 to 126: to_numeric
    over the four price columns raises ValueError on non-numeric text;
    the volume column is coerced (text becomes NaN, hence NA) and the
    cast to Int64 raises TypeError on a non-integral numeric value. -/
def transformRows (sym now : String) (ts : List (String × RawBar)) :
    Except PyExc (List Row) :=
  if ts.all (fun kv => (priceVal kv.2.op).isSome && (priceVal kv.2.hi).isSome
      && (priceVal kv.2.lo).isSome && (priceVal kv.2.cl).isSome) then
    if ts.all (fun kv => match kv.2.vol with
        | .numFrac q => q.den == 1
        | _ => true) then
      .ok (ts.map (mkRow sym now))
    else .error .typeError
  else .error .valueError

/-- transform_data, lines 93 to 133. The except clause catches only
    FileNotFoundError, KeyError and TypeError and returns an empty
    DataFrame; json.JSONDecodeError and ValueError escape. -/
def transform_data (fs : Files) (path sym now : String) :
    Except PyExc (List Row) :=
  match lookupFile fs path with
  | none => .ok []
  | some .corruptText => .error .jsonDecodeError
  | some .jsonNonObject => .ok []
  | some (.jsonObj p) =>
      match p.timeSeries with
      | none => .ok []
      | some ts =>
          match transformRows sym now ts with
          | .error .typeError => .ok []
          | .error e => .error e
          | .ok rows => .ok rows

/-- SQLite binding of one DataFrame row: a NaN REAL binds as NULL, the
    other values carry over unchanged. -/
def toDBRecord (r : Row) : DBRecord :=
  { symbol := r.symbol
    date := r.date
    openP := r.openP
    highP := r.highP
    lowP := r.lowP
    closeP := r.closeP
    volume := r.volume
    dailyChange := match r.dailyChange with | .nan => none | v => some v
    extractionTs := r.extractionTs }

/-- Whether the table already holds a record with this (symbol, date). -/
def hasKey (db : List DBRecord) (s d : String) : Bool :=
  db.any (fun r => r.symbol == s && r.date == d)

/-- INSERT OR IGNORE of one row, lines 182 to 190, under the table
    schema of lines 144 to 158: a row whose (symbol, date) already
    exists is skipped by the UNIQUE constraint, and a row with a NULL
    volume is skipped by the volume INTEGER NOT NULL constraint. -/
def insertRow (db : List DBRecord) (row : Row) : List DBRecord :=
  if hasKey db row.symbol row.date then db
  else if row.volume.isNone then db
  else db ++ [toDBRecord row]

/-- load_data_to_db, lines 163 to 194: return unchanged with a zero
    count on an empty DataFrame, otherwise executemany the insert and
    report the number of rows actually inserted. -/
def load_data_to_db (db : List DBRecord) (rows : List Row) :
    List DBRecord × Nat :=
  if rows.isEmpty then (db, 0)
  else
    let db2 := rows.foldl insertRow db
    (db2, db2.length - db.length)

/-- setup_database, lines 138 to 161: CREATE TABLE IF NOT EXISTS changes
    no stored records. -/
def setup_database (db : List DBRecord) : List DBRecord := db

/-- State threaded through one pipeline run: the raw-data directory and
    the stock_daily_data table. -/
structure RunState where
  files : Files
  db : List DBRecord
deriving DecidableEq

/-- Body of the per-symbol loop of run_etl_pipeline, lines 205 to 209:
    fetch, and when a path came back, transform then load. A raised
    exception aborts the run; a returned None skips the symbol. -/
def processSymbol (net : String → String → NetOutcome) (today now : String)
    (st : RunState) (sym : String) : Except PyExc RunState :=
  match fetch_stock_data st.files sym net today with
  | (.raised e, _) => .error e
  | (.noArtifact, fs) => .ok { st with files := fs }
  | (.ok path, fs) =>
      match transform_data fs path sym now with
      | .error e => .error e
      | .ok rows => .ok { files := fs, db := (load_data_to_db st.db rows).1 }

/-- Sequential loop over the symbol list. -/
def runSymbols (net : String → String → NetOutcome) (today now : String) :
    List String → RunState → Except PyExc RunState
  | [], st => .ok st
  | sym :: rest, st =>
      match processSymbol net today now st sym with
      | .error e => .error e
      | .ok st2 => runSymbols net today now rest st2

/-- run_etl_pipeline, lines 198 to 211: set up the table then process
    every configured symbol in order. -/
def run_etl_pipeline (net : String → String → NetOutcome)
    (st : RunState) (today now : String) : Except PyExc RunState :=
  runSymbols net today now SYMBOLS { st with db := setup_database st.db }

/-- Python truthiness of the optional credential string: None and the
    empty string are falsy. -/
def pyTruthy : Option String → Bool
  | none => false
  | some s => !(s == "")

/-- Entry-point guard of lines 214 to 217: raise ValueError when the
    credential is missing, otherwise run the pipeline. -/
def mainEntry (apiKey : Option String) (net : String → String → NetOutcome)
    (st : RunState) (today now : String) : Except PyExc RunState :=
  if pyTruthy apiKey then run_etl_pipeline net st today now
  else .error .valueError

/-- Repeated loader calls starting from the empty table: the Loader is
    the only writer of the store. -/
def runLoads (batches : List (List Row)) : List DBRecord :=
  batches.foldl (fun db rows => (load_data_to_db db rows).1) []

/-- No two stored records share the same (symbol, date) pair. -/
def KeyUnique (db : List DBRecord) : Prop :=
  db.Pairwise (fun a b => ¬(a.symbol = b.symbol ∧ a.date = b.date))

/-- Artifact written by the extractor: a symbol and a fetch date. -/
structure Artifact where
  symbol : String
  date : String
deriving DecidableEq

/-- File name the extractor gives an artifact, line 78. -/
def artifactName (a : Artifact) : String :=
  a.symbol ++ "_" ++ a.date ++ ".json"

deriving instance DecidableEq for Except

/-- Concrete valid bar used by the test scenarios: open 100, high 110,
    low 90, close 105, volume 1000. -/
def goodBar : RawBar :=
  ⟨.numInt 100, .numInt 110, .numInt 90, .numInt 105, .numInt 1000⟩

/-- Concrete valid single-day payload. -/
def goodPayload : Payload := ⟨none, some [("2024-01-02", goodBar)]⟩

/-- Payload carrying an Information field together with a complete,
    valid time series. -/
def infoPayload : Payload := ⟨some "API rate limit", some [("2024-01-02", goodBar)]⟩

/-- Network where the second configured symbol suffers a transport
    failure and the others answer with a valid payload. -/
def netTransportMid : String → String → NetOutcome := fun sym _ =>
  if sym == "GOOG" then .transportError else .response goodPayload

/-- Network where the second configured symbol receives a payload that
    carries only an informational rate-limit message. -/
def netInfoMid : String → String → NetOutcome := fun sym _ =>
  if sym == "GOOG" then .response ⟨some "limit note", none⟩
  else .response goodPayload

/-- Row the transform produces from goodBar. -/
def rowGood : Row :=
  ⟨"AAPL", "2024-01-02", 100, 110, 90, 105, some 1000, .fin 5, "t"⟩

/-- Snapshot directory holding one valid artifact for AAPL. -/
def fsGood : Files := [("AAPL_2024-01-02.json", .jsonObj goodPayload)]

/-- Bar whose volume field is text that does not parse as an integer. -/
def naVolBar : RawBar := ⟨.numInt 10, .numInt 12, .numInt 9, .numInt 11, .text "N/A"⟩

/-- Snapshot directory holding one artifact whose single entry has the
    unparseable volume. -/
def fsNaVol : Files :=
  [("AAPL_2024-01-02.json", .jsonObj ⟨none, some [("2024-01-01", naVolBar)]⟩)]

/-- Row the transform produces from naVolBar: prices intact, volume NA. -/
def rowNaVol : Row :=
  ⟨"AAPL", "2024-01-01", 10, 12, 9, 11, none, .fin 10, "t"⟩

/-- Bar with a zero open price. -/
def zeroOpenBar : RawBar :=
  ⟨.numInt 0, .numInt 110, .numInt 0, .numInt 105, .numInt 1000⟩

/-- Snapshot directory holding one artifact whose single entry has the
    zero open price. -/
def fsZeroOpen : Files :=
  [("AAPL_2024-01-02.json", .jsonObj ⟨none, some [("2024-01-01", zeroOpenBar)]⟩)]

/-- Row the transform produces from zeroOpenBar: the change column is
    the IEEE infinity, since (105 - 0) / 0 overflows to inf. -/
def rowZeroOpen : Row :=
  ⟨"AAPL", "2024-01-01", 0, 110, 0, 105, some 1000, .inf, "t"⟩

/-- C2: a TransportError on one symbol is caught at the symbol boundary
    and leaves the state unchanged, and in the concrete three-symbol run
    where the second symbol (GOOG) fails with a transport error, the run
    completes and the first and third symbols (AAPL, MSFT) still produce
    stored rows while GOOG stores none. -/
theorem c2_transport_isolation :
    (∀ (st : RunState) (sym today now : String),
      processSymbol (fun _ _ => NetOutcome.transportError) today now st sym
        = Except.ok st)
    ∧ ((match run_etl_pipeline netTransportMid ⟨[], []⟩ "2024-01-02" "t" with
        | .ok st =>
            st.db.any (fun r => r.symbol == "AAPL")
              && st.db.any (fun r => r.symbol == "MSFT")
              && !(st.db.any (fun r => r.symbol == "GOOG"))
        | .error _ => false) = true) := by
  constructor
  · intro st sym today now
    rfl
  · decide

/-- C1 counterexample: on a payload carrying only an informational
    rate-limit message, fetch_stock_data does not return the no-artifact
    signal; the RuntimeError escapes its handlers, and the three-symbol
    run with the rate-limited second symbol aborts instead of continuing
    with the remaining symbols. -/
theorem c1_rate_limit_escapes_cex :
    fetch_stock_data [] "GOOG" netInfoMid "2024-01-02"
        = (FetchOut.raised .runtimeError, [])
    ∧ fetch_stock_data [] "GOOG" netInfoMid "2024-01-02"
        ≠ (FetchOut.noArtifact, [])
    ∧ run_etl_pipeline netInfoMid ⟨[], []⟩ "2024-01-02" "t"
        = Except.error PyExc.runtimeError := by
  refine ⟨rfl, by decide, by decide⟩

/-- C1 amended: a payload with a top-level Information field is
    classified distinctly, as the rate-limit RuntimeError rather than a
    validation error, no snapshot is written and zero rows are stored
    for that symbol; but the exception is not caught at the symbol
    boundary: it escapes the extractor and aborts the pipeline run, so
    the remaining symbols are not processed. -/
theorem c1_rate_limit_amended :
    ∀ (st : RunState) (sym today now m : String) (p : Payload),
      p.information = some m →
      fetchTry st.files sym (fun _ _ => NetOutcome.response p) today
          = Except.error PyExc.runtimeError
      ∧ fetch_stock_data st.files sym (fun _ _ => NetOutcome.response p) today
          = (FetchOut.raised .runtimeError, st.files)
      ∧ processSymbol (fun _ _ => NetOutcome.response p) today now st sym
          = Except.error PyExc.runtimeError := by
  intro st sym today now m p hm
  have h1 : fetchTry st.files sym (fun _ _ => NetOutcome.response p) today
      = Except.error PyExc.runtimeError := by
    simp [fetchTry, hm]
  refine ⟨h1, ?_, ?_⟩
  · simp [fetch_stock_data, h1]
  · simp [processSymbol, fetch_stock_data, h1]

/-- C1 amended, witness at a concrete message-only payload. -/
theorem c1_rate_limit_amended_witness :
    fetchTry [] "GOOG" (fun _ _ => NetOutcome.response ⟨some "limit note", none⟩)
        "2024-01-02" = Except.error PyExc.runtimeError
    ∧ fetch_stock_data [] "GOOG"
        (fun _ _ => NetOutcome.response ⟨some "limit note", none⟩) "2024-01-02"
        = (FetchOut.raised .runtimeError, [])
    ∧ processSymbol (fun _ _ => NetOutcome.response ⟨some "limit note", none⟩)
        "2024-01-02" "t" ⟨[], []⟩ "GOOG" = Except.error PyExc.runtimeError := by
  have h := c1_rate_limit_amended ⟨[], []⟩ "GOOG" "2024-01-02" "t" "limit note"
    ⟨some "limit note", none⟩ rfl
  exact h

/-- C10: the rate-limit branch looks only at the presence of the
    Information field and runs before schema validation, so any payload
    carrying it, even one that also holds a complete valid time series,
    is treated as rate-limited: fetchTry raises the rate-limit error,
    the file state is unchanged (no snapshot written), and the
    single-symbol run errors out before any row can reach the store. -/
theorem c10_information_check_first :
    ∀ (files : Files) (db : List DBRecord) (sym today now m : String) (p : Payload),
      p.information = some m →
      fetchTry files sym (fun _ _ => NetOutcome.response p) today
          = Except.error PyExc.runtimeError
      ∧ (fetch_stock_data files sym (fun _ _ => NetOutcome.response p) today).2
          = files
      ∧ runSymbols (fun _ _ => NetOutcome.response p) today now [sym] ⟨files, db⟩
          = Except.error PyExc.runtimeError := by
  intro files db sym today now m p hm
  have h1 : fetchTry files sym (fun _ _ => NetOutcome.response p) today
      = Except.error PyExc.runtimeError := by
    simp [fetchTry, hm]
  refine ⟨h1, ?_, ?_⟩
  · simp [fetch_stock_data, h1]
  · simp [runSymbols, processSymbol, fetch_stock_data, h1]

/-- C10 witness: the payload holds both the Information field and a
    complete valid time series, yet extraction is rate-limited, writes
    no snapshot and stores nothing. -/
theorem c10_information_check_first_witness :
    fetchTry [] "AAPL" (fun _ _ => NetOutcome.response infoPayload) "2024-01-02"
        = Except.error PyExc.runtimeError
    ∧ (fetch_stock_data [] "AAPL"
        (fun _ _ => NetOutcome.response infoPayload) "2024-01-02").2 = []
    ∧ runSymbols (fun _ _ => NetOutcome.response infoPayload) "2024-01-02" "t"
        ["AAPL"] ⟨[], []⟩ = Except.error PyExc.runtimeError := by
  have h := c10_information_check_first [] [] "AAPL" "2024-01-02" "t"
    "API rate limit" infoPayload rfl
  exact h

/-- C7: with the credential absent, the entry point raises the
    configuration ValueError whatever the network or prior state, so the
    pipeline aborts before any symbol is fetched, transformed or
    loaded. -/
theorem c7_missing_credential_fatal :
    ∀ (net : String → String → NetOutcome) (st : RunState) (today now : String),
      mainEntry none net st today now = Except.error PyExc.valueError := by
  intro net st today now
  rfl

/-- C5: on an artifact entry whose volume does not parse as an integer,
    the transform does keep the row with a null volume and intact
    prices, but the load then silently drops it: the volume column is
    declared INTEGER NOT NULL and INSERT OR IGNORE skips the violating
    row, so the store stays empty and zero rows are inserted. -/
theorem c5_null_volume_row_dropped :
    transform_data fsNaVol "AAPL_2024-01-02.json" "AAPL" "t"
        = Except.ok [rowNaVol]
    ∧ rowNaVol.volume = none
    ∧ rowNaVol.openP = 10 ∧ rowNaVol.closeP = 11
    ∧ load_data_to_db [] [rowNaVol] = ([], 0) := by
  refine ⟨by with_unfolding_all rfl, rfl, rfl, rfl, rfl⟩

/-- C6 counterexample: with open 0 and close 105 the transform yields
    the IEEE infinity for the change column, and the loaded record
    stores it as an infinite REAL value, not as a null or NaN marker. -/
theorem c6_zero_open_cex :
    transform_data fsZeroOpen "AAPL_2024-01-02.json" "AAPL" "t"
        = Except.ok [rowZeroOpen]
    ∧ (load_data_to_db [] [rowZeroOpen]).1 = [toDBRecord rowZeroOpen]
    ∧ (toDBRecord rowZeroOpen).dailyChange = some FloatVal.inf
    ∧ (toDBRecord rowZeroOpen).dailyChange ≠ none := by
  refine ⟨by with_unfolding_all rfl, rfl, rfl, by decide⟩

/-- C8 counterexample: on a snapshot whose content is not valid JSON
    (corruption after extraction-time validation), transform_data does
    not return an empty row-set; the JSON decode error, a ValueError
    outside the caught (FileNotFoundError, KeyError, TypeError) tuple,
    propagates to the caller. -/
theorem c8_corrupt_snapshot_cex :
    transform_data [("AAPL_x.json", FileContent.corruptText)] "AAPL_x.json"
        "AAPL" "t" = Except.error PyExc.jsonDecodeError
    ∧ transform_data [("AAPL_x.json", FileContent.corruptText)] "AAPL_x.json"
        "AAPL" "t" ≠ Except.ok [] := by
  exact ⟨rfl, by decide⟩

/-- C8 amended: the transform reports and returns an empty row-set when
    the snapshot file is missing, when the JSON value is not an object,
    or when the time-series key is absent; but a snapshot whose text is
    not valid JSON raises a decode error that propagates to the
    caller. -/
theorem c8_transform_amended :
    ∀ (fs : Files) (path sym now : String),
      (lookupFile fs path = none → transform_data fs path sym now = Except.ok [])
      ∧ (lookupFile fs path = some FileContent.jsonNonObject →
          transform_data fs path sym now = Except.ok [])
      ∧ (∀ i : Option String,
          lookupFile fs path = some (FileContent.jsonObj ⟨i, none⟩) →
          transform_data fs path sym now = Except.ok [])
      ∧ (lookupFile fs path = some FileContent.corruptText →
          transform_data fs path sym now = Except.error PyExc.jsonDecodeError) := by
  intro fs path sym now
  refine ⟨?_, ?_, ?_, ?_⟩
  · intro h; simp [transform_data, h]
  · intro h; simp [transform_data, h]
  · intro i h; simp [transform_data, h]
  · intro h; simp [transform_data, h]

/-- C8 amended, witness: a missing file gives the empty row-set and a
    corrupt file gives the escaping decode error. -/
theorem c8_transform_amended_witness :
    transform_data [] "AAPL_y.json" "AAPL" "t" = Except.ok []
    ∧ transform_data [("AAPL_y.json", FileContent.corruptText)] "AAPL_y.json"
        "AAPL" "t" = Except.error PyExc.jsonDecodeError :=
  ⟨(c8_transform_amended [] "AAPL_y.json" "AAPL" "t").1 rfl,
   (c8_transform_amended [("AAPL_y.json", FileContent.corruptText)]
      "AAPL_y.json" "AAPL" "t").2.2.2 rfl⟩

/-- Every row the transform emits carries the change value computed by
    dailyChangeVal from its own open and close columns. -/
theorem transform_rows_dailyChange :
    ∀ (fs : Files) (path sym now : String) (rows : List Row),
      transform_data fs path sym now = Except.ok rows →
      ∀ r ∈ rows, r.dailyChange = dailyChangeVal r.openP r.closeP := by
  intro fs path sym now rows h r hr
  unfold transform_data at h
  split at h
  · injection h with h2
    subst h2
    cases hr
  · simp at h
  · injection h with h2
    subst h2
    cases hr
  · split at h
    · injection h with h2
      subst h2
      cases hr
    · split at h
      · injection h with h2
        subst h2
        cases hr
      · simp at h
      · rename_i rows0 htr
        injection h with h2
        subst h2
        unfold transformRows at htr
        split at htr
        · split at htr
          · injection htr with h3
            subst h3
            rcases List.mem_map.mp hr with ⟨kv, hkv, rfl⟩
            rfl
          · simp at htr
        · simp at htr

/-- C6 amended: for every transformed row with a nonzero open, the
    change column equals (close - open) / open * 100 exactly (so open
    100, close 105 yields 5.0); with a zero open no exception is raised,
    but the value is the IEEE infinity carrying the sign of close, and
    only for close equal to zero the NaN that the store binds as NULL. -/
theorem c6_daily_change_amended :
    ∀ (fs : Files) (path sym now : String) (rows : List Row),
      transform_data fs path sym now = Except.ok rows →
      ∀ r ∈ rows,
        (r.openP ≠ 0 →
          r.dailyChange = FloatVal.fin ((r.closeP - r.openP) / r.openP * 100))
        ∧ (r.openP = 0 → 0 < r.closeP → r.dailyChange = FloatVal.inf)
        ∧ (r.openP = 0 → r.closeP < 0 → r.dailyChange = FloatVal.negInf)
        ∧ (r.openP = 0 → r.closeP = 0 → r.dailyChange = FloatVal.nan) := by
  intro fs path sym now rows h r hr
  have hd := transform_rows_dailyChange fs path sym now rows h r hr
  refine ⟨?_, ?_, ?_, ?_⟩
  · intro ho
    rw [hd]
    unfold dailyChangeVal
    rw [if_neg ho]
  · intro ho hc
    rw [hd]
    unfold dailyChangeVal
    rw [if_pos ho, if_pos hc]
  · intro ho hc
    rw [hd]
    unfold dailyChangeVal
    rw [if_pos ho, if_neg (not_lt.mpr hc.le), if_pos hc]
  · intro ho hc
    rw [hd]
    unfold dailyChangeVal
    rw [if_pos ho, hc]
    simp

/-- C6 amended, witness: the row produced from the good artifact has
    open 100, close 105 and its change column equals the exact formula
    value 5.0. -/
theorem c6_daily_change_amended_witness :
    rowGood.dailyChange
      = FloatVal.fin ((rowGood.closeP - rowGood.openP) / rowGood.openP * 100)
    ∧ rowGood.dailyChange = FloatVal.fin 5 := by
  have h := c6_daily_change_amended fsGood "AAPL_2024-01-02.json" "AAPL" "t"
    [rowGood] (by with_unfolding_all rfl) rowGood (by simp)
  exact ⟨h.1 (by norm_num [rowGood]), rfl⟩

/-- An insert whose (symbol, date) is already stored changes nothing. -/
theorem insertRow_of_hasKey (db : List DBRecord) (r : Row)
    (h : hasKey db r.symbol r.date = true) : insertRow db r = db := by
  simp [insertRow, h]

/-- An insert whose volume is NULL changes nothing: the NOT NULL
    constraint fires and OR IGNORE skips the row. -/
theorem insertRow_of_vol_none (db : List DBRecord) (r : Row)
    (h : r.volume = none) : insertRow db r = db := by
  simp [insertRow, h]

/-- One insert either leaves the table unchanged or appends one
    record. -/
theorem insertRow_cases (db : List DBRecord) (r : Row) :
    insertRow db r = db ∨ insertRow db r = db ++ [toDBRecord r] := by
  unfold insertRow
  split
  · exact .inl rfl
  · split
    · exact .inl rfl
    · exact .inr rfl

/-- Key presence over an appended table. -/
theorem hasKey_append (db1 db2 : List DBRecord) (s d : String) :
    hasKey (db1 ++ db2) s d = (hasKey db1 s d || hasKey db2 s d) := by
  simp [hasKey, List.any_append]

/-- Inserting never removes a stored key. -/
theorem hasKey_insertRow_mono (db : List DBRecord) (r : Row) (s d : String)
    (h : hasKey db s d = true) : hasKey (insertRow db r) s d = true := by
  rcases insertRow_cases db r with he | he <;> rw [he]
  · exact h
  · simp [hasKey_append, h]

/-- Folded inserts never remove a stored key. -/
theorem hasKey_foldl_mono (rows : List Row) :
    ∀ (db : List DBRecord) (s d : String), hasKey db s d = true →
      hasKey (rows.foldl insertRow db) s d = true := by
  induction rows with
  | nil => intro db s d h; simpa using h
  | cons a as ih =>
      intro db s d h
      simp only [List.foldl_cons]
      exact ih _ s d (hasKey_insertRow_mono db a s d h)

/-- After inserting a row with a present volume its key is stored. -/
theorem hasKey_insertRow_self (db : List DBRecord) (r : Row)
    (hv : r.volume.isSome = true) :
    hasKey (insertRow db r) r.symbol r.date = true := by
  unfold insertRow
  split
  · assumption
  · split
    · rename_i h2
      rw [Option.isNone_iff_eq_none] at h2
      rw [h2] at hv
      simp at hv
    · simp [hasKey_append, hasKey, toDBRecord]

/-- After the bulk insert, every submitted row with a present volume has
    its key stored. -/
theorem hasKey_foldl_of_mem (rows : List Row) :
    ∀ (db : List DBRecord) (r : Row), r ∈ rows → r.volume.isSome = true →
      hasKey (rows.foldl insertRow db) r.symbol r.date = true := by
  induction rows with
  | nil => intro db r hr; cases hr
  | cons a as ih =>
      intro db r hr hv
      rcases List.mem_cons.mp hr with rfl | hmem
      · simp only [List.foldl_cons]
        exact hasKey_foldl_mono as _ r.symbol r.date
          (hasKey_insertRow_self db r hv)
      · simp only [List.foldl_cons]
        exact ih _ r hmem hv

/-- A bulk insert in which every row is already keyed or carries a NULL
    volume is the identity. -/
theorem foldl_insertRow_id (rows : List Row) :
    ∀ db : List DBRecord,
      (∀ r ∈ rows, hasKey db r.symbol r.date = true ∨ r.volume = none) →
      rows.foldl insertRow db = db := by
  induction rows with
  | nil => intro db _; rfl
  | cons a as ih =>
      intro db h
      have hid : insertRow db a = db := by
        rcases h a (List.mem_cons_self a as) with h1 | h1
        · exact insertRow_of_hasKey db a h1
        · exact insertRow_of_vol_none db a h1
      simp only [List.foldl_cons, hid]
      exact ih db (fun r hr => h r (List.mem_cons_of_mem a hr))

/-- The loaded table is the fold of single inserts. -/
theorem load_data_fst (db : List DBRecord) (rows : List Row) :
    (load_data_to_db db rows).1 = rows.foldl insertRow db := by
  unfold load_data_to_db
  split
  · rename_i h
    rw [List.isEmpty_iff.mp h]
    rfl
  · rfl

/-- The reported count is the growth of the table. -/
theorem load_data_snd (db : List DBRecord) (rows : List Row) :
    (load_data_to_db db rows).2
      = (rows.foldl insertRow db).length - db.length := by
  unfold load_data_to_db
  split
  · rename_i h
    rw [List.isEmpty_iff.mp h]
    simp
  · rfl

/-- C3: loading the same row-set twice yields the same store content as
    loading it once, and the second load reports zero inserted rows. -/
theorem c3_load_idempotent :
    ∀ (db : List DBRecord) (rows : List Row),
      load_data_to_db (load_data_to_db db rows).1 rows
        = ((load_data_to_db db rows).1, 0) := by
  intro db rows
  have hfix : rows.foldl insertRow (load_data_to_db db rows).1
      = (load_data_to_db db rows).1 := by
    rw [load_data_fst]
    refine foldl_insertRow_id rows _ (fun r hr => ?_)
    cases hv : r.volume with
    | none => exact .inr rfl
    | some v =>
        exact .inl (hasKey_foldl_of_mem rows db r hr (by rw [hv]; rfl))
  have h1 : (load_data_to_db (load_data_to_db db rows).1 rows).1
      = (load_data_to_db db rows).1 := by
    rw [load_data_fst, hfix]
  have h2 : (load_data_to_db (load_data_to_db db rows).1 rows).2 = 0 := by
    rw [load_data_snd, hfix, Nat.sub_self]
  exact Prod.ext h1 h2

/-- A single insert preserves key uniqueness: a record is appended only
    when its (symbol, date) is absent. -/
theorem keyUnique_insertRow (db : List DBRecord) (r : Row)
    (h : KeyUnique db) : KeyUnique (insertRow db r) := by
  unfold insertRow
  split
  · exact h
  · split
    · exact h
    · rename_i hk _
      unfold KeyUnique
      rw [List.pairwise_append]
      refine ⟨h, List.pairwise_singleton _ _, ?_⟩
      intro a ha b hb
      rw [List.mem_singleton] at hb
      subst hb
      rintro ⟨hs, hd⟩
      apply hk
      unfold hasKey
      rw [List.any_eq_true]
      refine ⟨a, ha, ?_⟩
      simp [toDBRecord] at hs hd
      simp [hs, hd]

/-- A bulk insert preserves key uniqueness. -/
theorem keyUnique_foldl (rows : List Row) :
    ∀ db : List DBRecord, KeyUnique db →
      KeyUnique (rows.foldl insertRow db) := by
  induction rows with
  | nil => intro db h; exact h
  | cons a as ih =>
      intro db h
      simp only [List.foldl_cons]
      exact ih _ (keyUnique_insertRow db a h)

/-- A bulk insert only appends records; it never rewrites or removes an
    existing one. -/
theorem foldl_insertRow_extend (rows : List Row) :
    ∀ db : List DBRecord, ∃ ext, rows.foldl insertRow db = db ++ ext := by
  induction rows with
  | nil => intro db; exact ⟨[], by simp⟩
  | cons a as ih =>
      intro db
      simp only [List.foldl_cons]
      rcases insertRow_cases db a with he | he <;> rw [he]
      · exact ih db
      · rcases ih (db ++ [toDBRecord a]) with ⟨ext, hx⟩
        exact ⟨[toDBRecord a] ++ ext, by rw [hx, List.append_assoc]⟩

/-- C4: after any sequence of loader calls starting from the empty
    store, no two stored records share the same (symbol, date) pair, and
    every loader call only appends: the prior store content is an
    unchanged initial segment of the new one, so no record is ever
    updated or deleted. -/
theorem c4_store_unique_append_only :
    (∀ batches : List (List Row), KeyUnique (runLoads batches))
    ∧ (∀ (db : List DBRecord) (rows : List Row),
        ∃ ext, (load_data_to_db db rows).1 = db ++ ext) := by
  constructor
  · intro batches
    have hgen : ∀ db : List DBRecord, KeyUnique db →
        KeyUnique (batches.foldl (fun db rows => (load_data_to_db db rows).1) db) := by
      induction batches with
      | nil => intro db h; exact h
      | cons b bs ih =>
          intro db h
          simp only [List.foldl_cons]
          refine ih _ ?_
          rw [load_data_fst]
          exact keyUnique_foldl b db h
    exact hgen [] List.Pairwise.nil
  · intro db rows
    rw [load_data_fst]
    exact foldl_insertRow_extend rows db

/-- Any character list starts with itself, whatever follows. -/
theorem listStarts_self_append (l t : List Char) :
    listStarts l (l ++ t) = true := by
  induction l with
  | nil => rfl
  | cons a as ih => simp [listStarts, ih]

/-- Lists with distinct head characters do not start one another. -/
theorem listStarts_of_ne (c1 c2 : Char) (l1 l2 : List Char)
    (h : (c1 == c2) = false) :
    listStarts (c1 :: l1) (c2 :: l2) = false := by
  simp [listStarts, h]

/-- The string append concatenates the character data. -/
theorem strData_append (s t : String) : (s ++ t).data = s.data ++ t.data := rfl

/-- A glob for a symbol matches the artifact names of that symbol. -/
theorem globMatch_artifact_self (s d : String) :
    globMatch s (s ++ "_" ++ d ++ ".json") = true := by
  have hdata : (s ++ "_" ++ d ++ ".json").data
      = (s.data ++ ['_']) ++ (d.data ++ jsonExt) := by
    simp [strData_append, List.append_assoc]
    rfl
  unfold globMatch
  rw [hdata, Bool.and_eq_true]
  constructor
  · exact listStarts_self_append _ _
  · have hlen : s.data.length + 1 = (s.data ++ ['_']).length := by simp
    rw [hlen, List.drop_left, List.reverse_append]
    exact listStarts_self_append _ _

/-- A glob for one symbol rejects a name whose first character already
    differs. -/
theorem globMatch_diff (s : String) (c1 : Char) (l1 : List Char)
    (hs : s.data ++ ['_'] = c1 :: l1) (t d : String) (c2 : Char)
    (l2 : List Char) (ht : (t ++ "_" ++ d ++ ".json").data = c2 :: l2)
    (hne : (c1 == c2) = false) :
    globMatch s (t ++ "_" ++ d ++ ".json") = false := by
  unfold globMatch
  rw [ht, hs, listStarts_of_ne c1 c2 l1 l2 hne, Bool.false_and]

/-- Among the configured symbols, the glob of one symbol matches an
    artifact name exactly when the artifact belongs to that symbol. -/
theorem globMatch_sym_iff (s t : String) (hs : s ∈ SYMBOLS)
    (ht : t ∈ SYMBOLS) (d : String) :
    (globMatch s (t ++ "_" ++ d ++ ".json") = true ↔ s = t) := by
  simp only [SYMBOLS, List.mem_cons, List.not_mem_nil, or_false] at hs ht
  rcases hs with rfl | rfl | rfl <;> rcases ht with rfl | rfl | rfl
  · rw [globMatch_artifact_self]; simp
  · rw [globMatch_diff "AAPL" 'A' _ rfl "GOOG" d 'G' _ rfl (by decide)]; simp
  · rw [globMatch_diff "AAPL" 'A' _ rfl "MSFT" d 'M' _ rfl (by decide)]; simp
  · rw [globMatch_diff "GOOG" 'G' _ rfl "AAPL" d 'A' _ rfl (by decide)]; simp
  · rw [globMatch_artifact_self]; simp
  · rw [globMatch_diff "GOOG" 'G' _ rfl "MSFT" d 'M' _ rfl (by decide)]; simp
  · rw [globMatch_diff "MSFT" 'M' _ rfl "AAPL" d 'A' _ rfl (by decide)]; simp
  · rw [globMatch_diff "MSFT" 'M' _ rfl "GOOG" d 'G' _ rfl (by decide)]; simp
  · rw [globMatch_artifact_self]; simp

/-- C9: over a raw-data directory consisting of extractor-written
    artifacts for configured symbols, the extractor requests the compact
    window exactly when some previously saved artifact for this symbol
    exists, and the full history otherwise; the decision reads only the
    local file names. -/
theorem c9_fetch_mode :
    ∀ (arts : List Artifact), (∀ a ∈ arts, a.symbol ∈ SYMBOLS) →
      ∀ s ∈ SYMBOLS,
        (output_size s (arts.map artifactName) = "compact"
          ↔ ∃ a ∈ arts, a.symbol = s)
        ∧ ((¬∃ a ∈ arts, a.symbol = s) →
          output_size s (arts.map artifactName) = "full") := by
  intro arts hsyms s hs
  have hany : ((arts.map artifactName).any (fun n => globMatch s n) = true)
      ↔ ∃ a ∈ arts, a.symbol = s := by
    rw [List.any_eq_true]
    constructor
    · rintro ⟨n, hn, hm⟩
      rcases List.mem_map.mp hn with ⟨a, ha, rfl⟩
      have hgm : globMatch s (a.symbol ++ "_" ++ a.date ++ ".json") = true := hm
      exact ⟨a, ha, ((globMatch_sym_iff s a.symbol hs (hsyms a ha) a.date).mp hgm).symm⟩
    · rintro ⟨a, ha, hsa⟩
      refine ⟨artifactName a, List.mem_map_of_mem _ ha, ?_⟩
      show globMatch s (artifactName a) = true
      exact (globMatch_sym_iff s a.symbol hs (hsyms a ha) a.date).mpr hsa.symm
  constructor
  · constructor
    · intro h
      by_contra hno
      have hfalse : (arts.map artifactName).any (fun n => globMatch s n) = false := by
        cases hb : (arts.map artifactName).any (fun n => globMatch s n)
        · rfl
        · exact absurd (hany.mp hb) hno
      rw [output_size, hfalse] at h
      simp at h
    · intro hex
      rw [output_size, hany.mpr hex]
      rfl
  · intro hno
    have hfalse : (arts.map artifactName).any (fun n => globMatch s n) = false := by
      cases hb : (arts.map artifactName).any (fun n => globMatch s n)
      · rfl
      · exact absurd (hany.mp hb) hno
    rw [output_size, hfalse]
    rfl

/-- C9 witness: with one stored AAPL artifact, the mode for AAPL is
    compact and the mode for GOOG is full. -/
theorem c9_fetch_mode_witness :
    output_size "AAPL" ([Artifact.mk "AAPL" "2024-01-01"].map artifactName)
        = "compact"
    ∧ output_size "GOOG" ([Artifact.mk "AAPL" "2024-01-01"].map artifactName)
        = "full" := by
  have h1 := c9_fetch_mode [Artifact.mk "AAPL" "2024-01-01"] (by decide)
    "AAPL" (by decide)
  have h2 := c9_fetch_mode [Artifact.mk "AAPL" "2024-01-01"] (by decide)
    "GOOG" (by decide)
  exact ⟨h1.1.mpr ⟨Artifact.mk "AAPL" "2024-01-01", by simp, rfl⟩,
    h2.2 (by decide)⟩
